import Mathlib

/-!
Verification of the `api/chat.js` serverless chat handler
(portfolio chat API: token-bucket rate limiter, input guard, prompt
assembler, multi-model fallback invoker, response flavoring, orchestrating
handler).

Shallow embedding conventions:
* JavaScript numbers that hold rate-limiter state are modelled by `ℚ`
  (all values actually reached by the code on the inputs of interest are
  exactly representable, so `ℚ` agrees with IEEE doubles there).
* Timestamps (`Date.now()`) are `ℚ` milliseconds, injected as a parameter.
* Strings are Lean `String`s; `.length` counts characters, which agrees
  with JavaScript's UTF-16 count on the ASCII inputs the claims use.
* A field that may be absent, or present with a non-string value whose
  only observable effect is to fail a `typeof`-style check, is modelled
  as `Option String` with `none` for the absent/non-string case.
* The network (`fetch`) is abstracted as an injected function
  `respond : model → prompt → UpstreamResult`; the handler and the
  fallback invoker additionally return the ordered list of model ids on
  which `respond` was invoked, so that "how many upstream calls were
  made, and in which order" is part of the observable behavior.
-/

namespace ChatApi

/-! ## JavaScript string primitives -/

/-- ECMAScript whitespace (`\s`, `String.prototype.trim`): WhiteSpace and
LineTerminator code points. -/
def isJsSpace (c : Char) : Bool :=
  c = ' ' || c = '\t' || c = '\n' || c = '\r' || c = '\x0b' || c = '\x0c' ||
  c = ' ' || c = ' ' || (' ' ≤ c && c ≤ ' ') ||
  c = ' ' || c = ' ' || c = ' ' || c = ' ' ||
  c = '　' || c = '﻿'

/-- JavaScript `String.prototype.trim`. -/
def jsTrim (s : String) : String :=
  String.mk (((s.data.dropWhile isJsSpace).reverse.dropWhile isJsSpace).reverse)

/-- JavaScript `String.prototype.includes` on lists of characters. -/
def containsAux (pat : List Char) : List Char → Bool
  | [] => List.isPrefixOf pat []
  | c :: rest => List.isPrefixOf pat (c :: rest) || containsAux pat rest

/-- JavaScript `s.includes(pat)` (case-sensitive substring test). -/
def containsStr (s pat : String) : Bool :=
  containsAux pat.data s.data

/-- Match a lowercase ASCII literal case-insensitively against the head of
the input (the `/i` flag of the blocked-pattern regexes); returns the rest
of the input on success. -/
def matchLowerCI : List Char → List Char → Option (List Char)
  | [], l => some l
  | _ :: _, [] => none
  | p :: ps, c :: cs => if c.toLower = p then matchLowerCI ps cs else none

/-! ## Input guard: `MAX_CHARS` and `BLOCKED_PATTERNS` -/

def MAX_CHARS : Nat := 800

/-- Does `/https?:\/\/\S{20,}/i` match at this position: the scheme
literal followed by at least 20 non-whitespace characters. -/
def urlSpamAt (l : List Char) : Bool :=
  (match matchLowerCI "http://".data l with
   | some rest => 20 ≤ (rest.takeWhile (fun c => !isJsSpace c)).length
   | none => false) ||
  (match matchLowerCI "https://".data l with
   | some rest => 20 ≤ (rest.takeWhile (fun c => !isJsSpace c)).length
   | none => false)

/-- Does `/(free\s*money|giveaway)/i` match at this position. -/
def spamPhraseAt (l : List Char) : Bool :=
  (match matchLowerCI "free".data l with
   | some rest =>
     (matchLowerCI "money".data (rest.dropWhile isJsSpace)).isSome
   | none => false) ||
  (matchLowerCI "giveaway".data l).isSome

/-- Does `p` hold at some position (suffix) of the character list; the
regex-engine scan over start positions. -/
def scanAny (p : List Char → Bool) : List Char → Bool
  | [] => p []
  | c :: rest => p (c :: rest) || scanAny p rest

/-- `BLOCKED_PATTERNS[0]`: `/https?:\/\/\S{20,}/i`. -/
def hasUrlSpam (s : String) : Bool := scanAny urlSpamAt s.data

/-- `BLOCKED_PATTERNS[1]`: `/(free\s*money|giveaway)/i`. -/
def hasSpamPhrase (s : String) : Bool := scanAny spamPhraseAt s.data

/-- Regex `\w`: ASCII word characters. -/
def isWordChar (c : Char) : Bool :=
  ('a' ≤ c && c ≤ 'z') || ('A' ≤ c && c ≤ 'Z') || ('0' ≤ c && c ≤ '9') || c = '_'

/-- The punctuation whitelisted by `BLOCKED_PATTERNS[2]`'s character
class `[^\w\s.,?!@()\-+/'":;%&]`. -/
def isAllowedPunct (c : Char) : Bool :=
  c = '.' || c = ',' || c = '?' || c = '!' || c = '@' || c = '(' || c = ')' ||
  c = '-' || c = '+' || c = '/' || c = '\'' || c = '"' || c = ':' || c = ';' ||
  c = '%' || c = '&'

/-- `BLOCKED_PATTERNS[2]`: `/[^\w\s.,?!@()\-+/'":;%&]/u` — some character
outside the whitelist. -/
def hasBadChar (s : String) : Bool :=
  s.data.any (fun c => !(isWordChar c || isJsSpace c || isAllowedPunct c))

/-- `BLOCKED_PATTERNS.some((re) => re.test(trimmed))`. -/
def blockedPatternsSome (s : String) : Bool :=
  hasUrlSpam s || hasSpamPhrase s || hasBadChar s

/-- The four rejection reasons of the input-guard section of the handler,
in check order: `!message || typeof message !== "string"` (400,
"Provide 'message' (string)"), empty after trim (400, "Empty message"),
over `MAX_CHARS` (413), blocked pattern (400, spam). -/
inductive GuardError
  | missingMessage
  | emptyMessage
  | tooLong
  | spamLike
deriving DecidableEq

/-- The input-guard checks of the handler (lines 131–149), in source
order with short-circuiting.  `none` models an absent or non-string
`message` field; note that a present-but-empty string also fails the
JavaScript `!message` truthiness test and thus hits the first error. -/
def validate (message : Option String) : Except GuardError String :=
  match message with
  | none => .error .missingMessage
  | some m =>
    if m = "" then .error .missingMessage
    else
      let trimmed := jsTrim m
      if trimmed = "" then .error .emptyMessage
      else if MAX_CHARS < trimmed.length then .error .tooLong
      else if blockedPatternsSome trimmed then .error .spamLike
      else .ok trimmed

/-- HTTP status the handler pairs with each guard error. -/
def guardStatus : GuardError → Nat
  | .tooLong => 413
  | _ => 400

/-- Error-body text the handler pairs with each guard error. -/
def guardMessage : GuardError → String
  | .missingMessage => "Provide 'message' (string)"
  | .emptyMessage => "Empty message"
  | .tooLong => "Message too long (max 800 chars)"
  | .spamLike => "Message looks like spam. Try rephrasing."

/-! ## Token-bucket rate limiter (`RATE`, `buckets`, `takeToken`) -/

/-- `RATE.capacity` (burst size). -/
def RATE_capacity : ℚ := 16

/-- `RATE.refillPerMinute`. -/
def RATE_refillPerMinute : ℚ := 8

/-- One entry of the `buckets` map: `{ tokens, last }`. -/
structure Bucket where
  tokens : ℚ
  last : ℚ
deriving DecidableEq

/-- `takeToken` on the bucket looked up for one ip (`buckets.get(ip)`,
`none` when the ip has no bucket yet): refill proportionally to elapsed
minutes, cap at capacity, then consume one token if at least one is
available.  Returns the allow/deny decision and the stored bucket. -/
def takeToken (now : ℚ) (b0 : Option Bucket) : Bool × Bucket :=
  let b := b0.getD { tokens := RATE_capacity, last := now }
  let elapsedMin := (now - b.last) / 60000
  let tokens2 := min RATE_capacity (b.tokens + elapsedMin * RATE_refillPerMinute)
  if 1 ≤ tokens2 then (true, { tokens := tokens2 - 1, last := now })
  else (false, { tokens := tokens2, last := now })

/-- The process-wide `buckets` map, as a function from ip to bucket. -/
abbrev BucketMap := String → Option Bucket

/-- `takeToken(ip)` acting on the whole `buckets` map. -/
def takeTokenMap (ip : String) (now : ℚ) (m : BucketMap) : Bool × BucketMap :=
  let r := takeToken now (m ip)
  (r.1, fun k => if k = ip then some r.2 else m k)

/-- `n` consecutive `takeToken` calls on one bucket at a common timestamp
`now`; returns the list of decisions and the final bucket. -/
def takeN : Nat → ℚ → Option Bucket → List Bool × Option Bucket
  | 0, _, b => ([], b)
  | n + 1, now, b =>
    let r := takeToken now b
    let rest := takeN n now (some r.2)
    (r.1 :: rest.1, rest.2)

/-- A sequence of `takeToken(ip)` calls, each with its timestamp, run
against the `buckets` map in order. -/
def runCalls : List (String × ℚ) → BucketMap → BucketMap
  | [], m => m
  | (ip, t) :: rest, m => runCalls rest (takeTokenMap ip t m).2

/-- The timestamps of a call sequence are nondecreasing, i.e. the elapsed
time between consecutive calls is non-negative. -/
def timesNondec : List ℚ → Bool
  | [] => true
  | [_] => true
  | a :: b :: r => (decide (a ≤ b)) && timesNondec (b :: r)

/-! ## Fallback completion invoker (`DEFAULT_MODELS`, `callGroqWithFallback`) -/

/-- `DEFAULT_MODELS`: optional `process.env.GROQ_MODEL` override followed
by the fixed fallback order, with falsy entries removed by
`.filter(Boolean)`. -/
def defaultModels (envModel : Option String) : List String :=
  ([envModel.getD "",
    "llama-3.3-70b-versatile",
    "llama-3.1-70b-versatile",
    "llama-3.1-8b-instant",
    "mixtral-8x7b-32768",
    "gemma2-9b-it"]).filter (fun s => s ≠ "")

/-- Outcome of one `fetch` to the completion endpoint, as observed by
`callGroqWithFallback`:
* `httpError body` — the response was non-2xx (`!r.ok`) and its body text
  was `body`;
* `fetchError msg` — `fetch` (or reading/parsing the response) threw, and
  `String(e)` is `msg`;
* `success content` — 2xx, with `content` the value of
  `data?.choices?.[0]?.message?.content` (`none` when that chain is
  absent). -/
inductive UpstreamResult
  | httpError (body : String)
  | fetchError (msg : String)
  | success (content : Option String)
deriving DecidableEq

/-- The recoverable-error test on a non-2xx body:
`errText.includes("model_decommissioned") || errText.includes("not found")
|| errText.includes("unavailable")`. -/
def isRecoverableErr (e : String) : Bool :=
  containsStr e "model_decommissioned" || containsStr e "not found" ||
  containsStr e "unavailable"

/-- JavaScript `String(new Error(msg))`. -/
def jsErrorToString (msg : String) : String :=
  if msg = "" then "Error" else "Error: " ++ msg

/-- The message of the `Error` thrown after the loop:
`lastError || "All models failed"`. -/
def finalErrMessage : Option String → String
  | none => "All models failed"
  | some s => if s = "" then "All models failed" else s

/-- The candidate loop of `callGroqWithFallback`, with the running
`lastError` threaded through.  Besides the result it returns the ordered
list of model ids actually sent upstream.  Note that the `throw new
Error(errText)` for a non-recoverable non-2xx body sits inside the loop's
own `try`, so it is caught by `catch (e) { lastError = String(e);
continue; }` and the loop advances exactly as for a recoverable body; the
only difference is the `"Error: "` prefix recorded in `lastError`. -/
def callGroqWithFallbackAux (respond : String → String → UpstreamResult)
    (prompt : String) :
    List String → Option String → Except String String × List String
  | [], lastError => (.error (finalErrMessage lastError), [])
  | m :: rest, _ =>
    match respond m prompt with
    | .httpError body =>
      if isRecoverableErr body then
        let r := callGroqWithFallbackAux respond prompt rest (some body)
        (r.1, m :: r.2)
      else
        let r := callGroqWithFallbackAux respond prompt rest
          (some (jsErrorToString body))
        (r.1, m :: r.2)
    | .fetchError msg =>
      let r := callGroqWithFallbackAux respond prompt rest (some msg)
      (r.1, m :: r.2)
    | .success content =>
      match content with
      | some raw =>
        let answer := jsTrim raw
        if answer ≠ "" then (.ok answer, [m])
        else
          let r := callGroqWithFallbackAux respond prompt rest
            (some "Empty response")
          (r.1, m :: r.2)
      | none =>
        let r := callGroqWithFallbackAux respond prompt rest
          (some "Empty response")
        (r.1, m :: r.2)

/-- `callGroqWithFallback(prompt)` over a candidate list, starting with
`lastError = null`.  `.error msg` models the function throwing
`new Error(msg)`. -/
def callGroqWithFallback (respond : String → String → UpstreamResult)
    (models : List String) (prompt : String) :
    Except String String × List String :=
  callGroqWithFallbackAux respond prompt models none

/-! ## Response flavoring: `OPENERS`, `CLOSERS`, `pick`, `formatParagraphs` -/

def OPENERS : List String :=
  ["Here we go —",
   "Glad to jump in —",
   "Nice question —",
   "Let’s do this —",
   "Quick take:",
   "Sure thing —",
   "Absolutely —",
   "Alright —",
   "Happy to dig in —",
   "On it —"]

def CLOSERS : List String :=
  ["Want me to expand on any part?",
   "If you’d like the deeper details, I can unpack further.",
   "Curious about the why behind any of this?",
   "I can map this to the right project for your role next.",
   "I can link you to the exact section on the site."]

/-- `pick(arr)` is `arr[Math.floor(Math.random() * arr.length)]`; the
index is always in range, and we model the random draw as an injected
index (out-of-range indices default to `""` but are never produced by the
real `Math.floor(random * length)`). -/
def pick (arr : List String) (ix : Nat) : String := arr.getD ix ""

/-- The random draws consumed by the opener/closer flavoring step of the
handler: `Math.random() < 0.6` (prepend an opener), the opener index,
`Math.random() < 0.8` (append a closer on the non-prepend branch), and
the closer index. -/
structure FlavorRand where
  prepend : Bool
  openerIx : Nat
  appendCloser : Bool
  closerIx : Nat

/-- `/\n{2,}/.test(text)`: two consecutive newline characters occur. -/
def hasBlankLineAux : List Char → Bool
  | [] => false
  | '\n' :: '\n' :: _ => true
  | _ :: rest => hasBlankLineAux rest

def hasBlankLine (s : String) : Bool := hasBlankLineAux s.data

/-- `[.?!]`, the sentence-ending punctuation of the reflow regex. -/
def isSentEnd (c : Char) : Bool := c = '.' || c = '?' || c = '!'

/-- `[A-Z0-9“"('\[]`, the characters the reflow regex's lookahead accepts
as the start of a new sentence. -/
def isBoundaryStart (c : Char) : Bool :=
  ('A' ≤ c && c ≤ 'Z') || ('0' ≤ c && c ≤ '9') ||
  c = '“' || c = '"' || c = '(' || c = '\'' || c = '['

/-- `text.split(/(?<=[.?!])\s+(?=[A-Z0-9“"('\[])/)` as a one-pass scan:
a separator is a maximal whitespace run immediately preceded by
sentence-ending punctuation and immediately followed by a
sentence-starting character.  `acc` is the current piece (reversed);
`pend` is a whitespace run (reversed) whose start was preceded by
sentence-ending punctuation and whose classification is still open. -/
def splitAux : List Char → List Char → List Char → List String
  | [], acc, pend => [String.mk (pend ++ acc).reverse]
  | c :: rest, acc, pend =>
    if isJsSpace c then
      match pend, acc with
      | [], p :: _ =>
        if isSentEnd p then splitAux rest acc [c]
        else splitAux rest (c :: acc) []
      | [], [] => splitAux rest (c :: acc) []
      | _ :: _, _ => splitAux rest acc (c :: pend)
    else
      match pend with
      | [] => splitAux rest (c :: acc) []
      | _ :: _ =>
        if isBoundaryStart c then String.mk acc.reverse :: splitAux rest [c] []
        else splitAux rest (c :: (pend ++ acc)) []

/-- The sentence list `formatParagraphs` computes from a text with no
blank lines. -/
def splitSentences (s : String) : List String := splitAux s.data [] []

/-- The chunking loop of `formatParagraphs`: groups of 3 consecutive
sentences, each group joined with a single space
(`sentences.slice(i, i + 3).join(" ")`). -/
def chunks3 : List String → List String
  | [] => []
  | [a] => [a]
  | [a, b] => [a ++ " " ++ b]
  | a :: b :: c :: rest => (a ++ " " ++ b ++ " " ++ c) :: chunks3 rest

/-- `formatParagraphs(text)` (the `typeof` guard is moot here: the
argument is always a string, and `!text` only fires on `""`). -/
def formatParagraphs (text : String) : String :=
  if text = "" then text
  else if hasBlankLine text then jsTrim text
  else
    let sentences := splitSentences text
    if sentences.length < 4 then jsTrim text
    else jsTrim (String.intercalate "\n\n" (chunks3 sentences))

/-! ## Prompt assembly -/

/-- The `BIO` persona/knowledge template literal of the handler,
verbatim (it starts and ends with a newline in the source). -/
def bioText : String :=
  "
You are \"Max-AI Assistant,\" a warm, friendly, concise guide who answers ONLY about **Pranjal Srivastava** and his public portfolio.
Tone: upbeat, clear, brief but helpfully detailed; keep it recruiter-friendly. Vary your opener/closer—do NOT always say the same greeting. If a question is non-portfolio, gently steer back.
Formatting: Use short paragraphs separated by blank lines. When listing items, use compact bullet points.

PUBLIC PROFILE
- Name: Pranjal Srivastava  •  Location: Corpus Christi, TX
- Roles: AI/LLM & Full-Stack Engineer; Java/Spring Boot, .NET/C#, ServiceNow, SQL; strong applied-ML side projects
- Contact: pranjal6004@gmail.com • +1 (346) 375-2373
- Links: LinkedIn linkedin.com/in/pranjal-srivastava07 • Portfolio pranjalmax.github.io/pranjal-portfolio
- “MAX” name origin: Pranjal’s long-time gaming alias from childhood.

EXPERIENCE (high level)
- Revive Software Systems Inc. — Software Engineer (Feb 2025 – Present): GenAI (NINO360), Python, AWS (EC2/S3/Lambda), Jenkins CI/CD, Ansible, Docker/K8s.
- Metahorizon — Software Developer (Feb 2024 – Feb 2025): React, Spring Boot, Microservices migration, Redux, Performance optimization.
- Tinker Tech Logix — Software Developer (Nov 2022 – Dec 2023): Spring Boot/Swagger APIs, ERP modules, Workflow stabilization.
- ECS — Intern (May 2019 – Aug 2019): Cloud infra support, backups, monitoring, data migration.

EDUCATION
- M.S., Computer Science — Texas A&M University–Corpus Christi
- B.Tech., Computer Science — SRM Institute of Science & Technology

CORE SKILLS
- APIs/Web: Java, Spring Boot, .NET/C#, REST, Swagger/OpenAPI; Postman/Insomnia
- ServiceNow: App Engine, Portal, Record Producers, Client Scripts, UI Policies, Business Rules, Flow Designer, Notifications, ACLs/RBAC
- Data/SQL: SQL Server/Postgres, indexing & performance, SSRS/Power BI
- AI/ML: Python, embeddings/RAG basics, WebGPU/WebLLM, Transformers.js, retrieval, evaluation metrics
- DevOps: Git/GitHub, GitHub Actions/Jenkins, Docker, basic AWS/Azure

AI PROJECTS — CLEAR, RECRUITER-READY (site “AI Lab”)
1) Local CSV Analyst — Offline Browser-Based Data Explorer (React + DuckDB-wasm)
   • Browser-only app that turns any CSV into a mini analytics workspace without a server.
   • Infers schema, suggests smart questions (Top N, trends), runs SQL locally via DuckDB-wasm.
   • Renders interactive charts (Chart.js) and generates analyst-style narrative summaries.
   • Tech: React, Vite, Tailwind/shadcn, Framer Motion, DuckDB-wasm, Zustand.
   • Key Skill: Building full data products solo (UX to local SQL engine) with privacy-first architecture.

2) Lumina — Agentic Web Assistant (Chrome Extension + Gemini AI)
   • AI-powered extension for data extraction, page chat, and automation using natural language.
   • Features: AI Data Scraper (extracts structured JSON), Chat with Page (Q&A), AI Summarize, and Smart Actions (extract tables/prices).
   • Tech: React 18, TypeScript, Manifest V3, Google Gemini API, Framer Motion.
   • Architecture: Message-based communication between popup, content scripts, and background worker.

3) Ops Copilot — Autonomous AI Agent for IT Support (Agentic AI)
   • Autonomous agent that acts as a Level 1 SRE: triages tickets, checks logs, and triggers remediation.
   • Workflow: Ingests tickets -> Reasons (Gemini 2.0) -> Plans -> Executes Tools (httpCheck, logTail) -> Resolves.
   • Tech: React/Vite dashboard, Node.js/Express API, SQLite, Docker, n8n automation.
   • Features: RAG with Transformers.js for knowledge base search; real-time \"Hacker Terminal\" logs.

4) Vanessa — Voice AI Acquisitions Agent (Vapi + Node/Express, browser dialer)
   • Detects seller intent in under ~90s; captures price/timing/condition; polite branches (No/CallLater/DNC); ≤180s cap.
   • Webhook → /dashboard with real-time badges (Qualified/Not Qualified); deterministic qualification rule.

5) Private Doc Chat — On-Device RAG (Browser-Only)
   • 100% local: pdf.js extraction; sliding-window chunking; MiniLM embeddings via Transformers.js.
   • WebLLM on WebGPU for generation; IndexedDB storage; zero servers/API keys.

6) Hallucination Guard — Client-Side LLM Hallucination Checker
   • Verifies claims against local evidence (PDFs/text); highlights supported/uncertain claims.
   • Evidence scoring (lexical overlap + date/number checks); privacy-first.

7) MAX — Portfolio Copilot (Live portfolio + Vercel serverless chat API)
   • Safe, scoped assistant that only answers about Pranjal; serverless API with strict CORS, rate-limit, input guard, and model fallbacks.
   • Frontend: React + Tailwind; floating button; modern “AI-native” vibe.

SERVICE NOW / FOUNDATIONS PROJECTS (selection)
- Dog Adoption Portal — custom tables, Service Portal mapping, validations, notifications.
- Helpdesk Ticketing — Tickets/Departments/Technicians tables; portal intake; Business Rules/Flow Designer auto-assignment; notifications; simple dashboards.
- Academic/ML work: ECG Heart Failure detection (CNN), DDoS on SDN (Mininet/RYU), DB optimizations via DS&A, Fake-News detection, Weather forecasting (RNN/CNN).

CREDENTIALS & CERTIFICATIONS (public)
- Programming in Python for Everyone (Coursera)
- Learn C++ Programming — Beginner to Advance — Deep Dive in C++
- Complete ServiceNow Developer Course (Udemy)
- micro1 — Certified Software Engineer (AI Interview), Sep 2025
- ChatGPT Prompt Engineering for Developers
- Building Real-Time Video AI Applications (Nvidia)


OUTSIDE WORK (PERSONAL)
- Football (Soccer): Huge Real Madrid fan since age 9 (jerseys, flags, late-night Champions League). Can't wait for the World Cup.
- Hobbies: Movies (theater experience > laptop), Counter-Strike, FIFA.
- Music: Bollywood, Indie Indian/Pakistani (Hindi/Urdu), The Weeknd. \"Good music and good conversations.\"

PLAYGROUND (ENGINEER'S WORKBENCH) — The interactive dashboard on this site
- System Console: Simulates live backend logs (RAG pipelines, CI/CD, Training).
- Token Logic: Real-time token counter & cost estimator comparing GPT-4o vs Claude 3.5 Sonnet.
- System Health: Interactive chaos sliders (\"Temperature\" adds text glitches, \"Latency\" adds network lag).
- Vector Search: Visual RAG simulator that \"scans\" for semantic matches (e.g., \"job\" -> \"Experience\" node).
- Prompt Kit: One-click shortcuts to ask MAX about specific topics.

PORTFOLIO IMPLEMENTATION NOTES
- Deployed on GitHub Pages; fast, accessible; SEO/OG/JSON-LD; sticky header; modern dark UI; MAX chat onsite.
- Hero uses /src/assets/portfolio_image.png (bundled); Contact section includes one resume button:
  • Pranjal_Srivastava_Resume.pdf

STRICT POLICY
- If something isn’t public or unknown, say so briefly and suggest how Pranjal can provide it.
- If something isn’t public or unknown, say so briefly and suggest how Pranjal can provide it.
- Stay on-topic: if the user asks about unrelated topics, gently redirect to portfolio-relevant info.

STYLE GUIDANCE (enforced by you)
- Keep answers crisp with context cues (what, why, how, impact).
- Use short paragraphs separated by blank lines; bullets when helpful.
- Vary your opener/closer naturally; don’t repeat the same phrase.
"

/-- One entry of the caller-supplied `history` array.  `role` is `none`
when the field is absent or not a string (in which case
`h.role.toUpperCase()` throws a `TypeError`); `content` is the string
interpolation of the `content` field, which never throws. -/
structure HistTurn where
  role : Option String
  content : String
deriving DecidableEq

/-- JavaScript `String.prototype.toUpperCase` (ASCII; agrees with the
Unicode-aware original on the inputs of interest). -/
def jsToUpperCase (s : String) : String := String.mk (s.data.map Char.toUpper)

/-- `history.slice(-6)`: the last 6 entries (all of them when there are
fewer), oldest of that window first. -/
def sliceLast6 (history : List HistTurn) : List HistTurn :=
  history.drop (history.length - 6)

/-- `.map(h => h.role.toUpperCase() + ": " + h.content)` over a window:
`none` models the `TypeError` thrown on the first entry whose `role` is
absent or not a string. -/
def renderTurns : List HistTurn → Option (List String)
  | [] => some []
  | h :: t =>
    match h.role with
    | none => none
    | some r =>
      match renderTurns t with
      | none => none
      | some rest => some ((jsToUpperCase r ++ ": " ++ h.content) :: rest)

/-- `const convo = history.slice(-6).map(...).join("\n")`; `none` models
the `TypeError` escaping to the handler's `catch`. -/
def buildConvo (history : List HistTurn) : Option String :=
  (renderTurns (sliceLast6 history)).map (String.intercalate "\n")

/-- The prompt template literal of the handler:
`` `${BIO}\n\nRECENT CONTEXT:\n${convo}\n\nUSER: ${trimmed}\n\nASSISTANT (Max-AI Assistant):` ``. -/
def buildPrompt (convo : String) (trimmed : String) : String :=
  bioText ++ "\n\nRECENT CONTEXT:\n" ++ convo ++ "\n\nUSER: " ++ trimmed ++
    "\n\nASSISTANT (Max-AI Assistant):"

/-! ## Request handler (orchestrator) -/

def ALLOWED_ORIGIN : String := "https://pranjalmax.github.io"

/-- `req.body` after the `const { message, history = [] } = req.body || {}`
destructuring: an optional `message` (absent/non-string collapsed to
`none`) and a `history` array. -/
structure ReqBody where
  message : Option String
  history : List HistTurn

/-- The parts of the platform request object the handler reads. -/
structure Request where
  method : String
  origin : Option String
  xForwardedFor : Option String
  remoteAddress : Option String
  body : Option ReqBody

/-- The response body shapes the handler produces. -/
inductive RespBody
  | empty
  | jsonError (error : String)
  | jsonErrorDetail (error : String) (detail : String)
  | jsonAnswer (answer : String) (assistant : String)
deriving DecidableEq

/-- A terminal response: status code, the headers set on this path (in
`setHeader` order), and the body. -/
structure Response where
  status : Nat
  headers : List (String × String)
  body : RespBody
deriving DecidableEq

/-- `const allow = origin && origin.startsWith(ALLOWED_ORIGIN) ? origin :
ALLOWED_ORIGIN` with `const origin = req.headers.origin || ""`. -/
def computeAllow (origin? : Option String) : String :=
  let origin := origin?.getD ""
  if origin ≠ "" && origin.startsWith ALLOWED_ORIGIN then origin
  else ALLOWED_ORIGIN

/-- `ipFromReq(req)`: first entry of a comma-separated `x-forwarded-for`
(trimmed), else the socket address, else `"unknown"`. -/
def ipFromReq (req : Request) : String :=
  let sock :=
    match req.remoteAddress with
    | some a => if a = "" then "unknown" else a
    | none => "unknown"
  match req.xForwardedFor with
  | some xf => if xf ≠ "" then jsTrim ((xf.splitOn ",").headD "") else sock
  | none => sock

/-- The `detail` string produced when the history-rendering `TypeError`
reaches the handler's top-level `catch` — `String(e)` for the `TypeError`
thrown by `h.role.toUpperCase()` on an entry whose role is absent.  (The
exact text is engine-specific; this is V8's; no claim depends on it.) -/
def roleTypeErrorDetail : String :=
  "TypeError: Cannot read properties of undefined (reading 'toUpperCase')"

/-- The exported `handler(req, res)`, as a function of the injected
collaborators: the upstream network `respond`, the `GROQ_MODEL`
environment override, the random draws consumed by flavoring, the current
time, and the process-wide `buckets` map.  Returns the terminal response,
the updated `buckets` map, and the ordered list of model ids sent
upstream. -/
def handler (respond : String → String → UpstreamResult)
    (envModel : Option String) (rand : FlavorRand) (now : ℚ)
    (buckets : BucketMap) (req : Request) :
    Response × BucketMap × List String :=
  let allow := computeAllow req.origin
  if req.method = "OPTIONS" then
    (⟨200, [("Access-Control-Allow-Origin", allow),
            ("Access-Control-Allow-Methods", "POST, OPTIONS"),
            ("Access-Control-Allow-Headers", "Content-Type, Authorization")],
      .empty⟩, buckets, [])
  else if req.method ≠ "POST" then
    (⟨405, [("Access-Control-Allow-Origin", allow)], .jsonError "Use POST"⟩,
      buckets, [])
  else
    let ip := ipFromReq req
    let taken := takeTokenMap ip now buckets
    if !taken.1 then
      (⟨429, [("Access-Control-Allow-Origin", allow)],
        .jsonError "Too many requests, please wait a bit."⟩, taken.2, [])
    else
      let b := req.body.getD ⟨none, []⟩
      match validate b.message with
      | .error e =>
        (⟨guardStatus e, [("Access-Control-Allow-Origin", allow)],
          .jsonError (guardMessage e)⟩, taken.2, [])
      | .ok trimmed =>
        match buildConvo b.history with
        | none =>
          (⟨500, [("Access-Control-Allow-Origin", allow)],
            .jsonErrorDetail "Server error" roleTypeErrorDetail⟩, taken.2, [])
        | some convo =>
          let prompt := buildPrompt convo trimmed
          let result := callGroqWithFallback respond (defaultModels envModel) prompt
          match result.1 with
          | .error msg =>
            (⟨500, [("Access-Control-Allow-Origin", allow)],
              .jsonErrorDetail "Server error" (jsErrorToString msg)⟩,
              taken.2, result.2)
          | .ok raw =>
            let flavored :=
              if rand.prepend then pick OPENERS rand.openerIx ++ " " ++ raw
              else jsTrim (raw ++ " " ++
                (if rand.appendCloser then pick CLOSERS rand.closerIx else ""))
            let answer := formatParagraphs flavored
            (⟨200, [("Access-Control-Allow-Origin", allow)],
              .jsonAnswer answer "Max-AI Assistant"⟩, taken.2, result.2)

end ChatApi

deriving instance DecidableEq for Except

namespace ChatApi

/-! ## Invariants and concrete instances used by the theorems below -/

/-- Invariant of the `buckets` map at time `t`: every stored bucket has
`0 ≤ tokens ≤ RATE.capacity` and was last touched no later than `t`. -/
def MapInv (t : ℚ) (m : BucketMap) : Prop :=
  ∀ ip b, m ip = some b → 0 ≤ b.tokens ∧ b.tokens ≤ 16 ∧ b.last ≤ t

/-- An upstream that answers the first candidate with a non-2xx body that
matches none of the three recoverable substrings, and the second
candidate with a valid answer. -/
def respondFatalThenOk : String → String → UpstreamResult := fun model _ =>
  if model = "m1" then .httpError "Internal Server Error"
  else .success (some "hi")

/-- An upstream where the first two candidates report the recoverable
"model not found" body and the third returns a valid answer. -/
def respondNotFoundTwice : String → String → UpstreamResult := fun model _ =>
  if model = "a" then .httpError "model a not found"
  else if model = "b" then .httpError "model b not found"
  else .success (some "the answer")

/-- A fresh `buckets` map with no entries. -/
def emptyBuckets : BucketMap := fun _ => none

/-- A `buckets` map whose every bucket is empty (drained at time 0). -/
def drainedBuckets : BucketMap := fun _ => some ⟨0, 0⟩

/-- A well-formed `POST` request with a clean message and no history. -/
def reqPlainPost : Request := ⟨"POST", none, none, none, some ⟨some "hello", []⟩⟩

/-- A well-formed `POST` request whose single history entry has no `role`
field. -/
def reqBadHistory : Request :=
  ⟨"POST", none, none, none, some ⟨some "hello", [⟨none, "x"⟩]⟩⟩

/-- A `POST` request carrying an 801-character message. -/
def reqLong801 : Request :=
  ⟨"POST", none, none, none,
    some ⟨some (String.mk (List.replicate 801 'a')), []⟩⟩

/-- A seven-entry history (one more than the context window). -/
def histSeven : List HistTurn :=
  [⟨some "user", "m1"⟩, ⟨some "assistant", "m2"⟩, ⟨some "user", "m3"⟩,
   ⟨some "assistant", "m4"⟩, ⟨some "user", "m5"⟩, ⟨some "assistant", "m6"⟩,
   ⟨some "user", "m7"⟩]

/-! ## Token-bucket lemmas (claims C3 and C4) -/

/-- Unfolding of one `takeN` step. -/
theorem takeN_succ (n : Nat) (now : ℚ) (b : Option Bucket) :
    takeN (n + 1) now b =
      ((takeToken now b).1 :: (takeN n now (some (takeToken now b).2)).1,
       (takeN n now (some (takeToken now b).2)).2) := rfl

/-- `takeToken` on a bucket last refilled at the same instant: no refill
happens. -/
theorem takeToken_no_elapsed (q now : ℚ) :
    takeToken now (some ⟨q, now⟩) =
      if 1 ≤ min RATE_capacity q then (true, ⟨min RATE_capacity q - 1, now⟩)
      else (false, ⟨min RATE_capacity q, now⟩) := by
  simp [takeToken]

/-- The first `takeToken` for an unseen ip: the bucket is created full and
one token is consumed. -/
theorem takeToken_fresh (now : ℚ) : takeToken now none = (true, ⟨15, now⟩) := by
  simp [takeToken, RATE_capacity]
  norm_num

/-- Draining a bucket holding exactly `j ≤ 16` tokens at a fixed instant:
`j` calls succeed, the next fails. -/
theorem takeN_drain :
    ∀ (j : Nat), j ≤ 16 → ∀ now : ℚ,
      takeN (j + 1) now (some ⟨(j : ℚ), now⟩) =
        (List.replicate j true ++ [false], some ⟨0, now⟩) := by
  intro j
  induction j with
  | zero =>
    intro _ now
    rw [takeN_succ, takeToken_no_elapsed]
    have hmin : min RATE_capacity ((0 : Nat) : ℚ) = 0 := by
      rw [RATE_capacity]; norm_num
    rw [hmin]
    norm_num [takeN]
  | succ j ih =>
    intro hj now
    have hjq : ((j : ℚ) + 1) ≤ 16 := by exact_mod_cast hj
    have hmin : min RATE_capacity (((j + 1 : Nat)) : ℚ) = (j : ℚ) + 1 := by
      rw [RATE_capacity]; push_cast; exact min_eq_right hjq
    have hone : (1 : ℚ) ≤ min RATE_capacity (((j + 1 : Nat)) : ℚ) := by
      rw [hmin]
      have : (0 : ℚ) ≤ (j : ℚ) := by positivity
      linarith
    rw [takeN_succ, takeToken_no_elapsed]
    rw [if_pos hone, hmin]
    have htok : (j : ℚ) + 1 - 1 = ((j : Nat) : ℚ) := by ring
    rw [htok]
    rw [ih (by omega) now]
    simp [List.replicate_succ]

/-- `takeToken` on an empty bucket after exactly `k/8` minutes (`7500·k`
milliseconds): exactly `k` tokens have regenerated. -/
theorem takeToken_refill (t0 : ℚ) (k : Nat) (hk : k ≤ 16) :
    takeToken (t0 + 7500 * k) (some ⟨0, t0⟩) =
      if 1 ≤ (k : ℚ) then (true, ⟨(k : ℚ) - 1, t0 + 7500 * k⟩)
      else (false, ⟨(k : ℚ), t0 + 7500 * k⟩) := by
  have hkq : (k : ℚ) ≤ 16 := by exact_mod_cast hk
  have helapsed : (t0 + 7500 * (k : ℚ) - t0) / 60000 * RATE_refillPerMinute
      = (k : ℚ) := by
    rw [RATE_refillPerMinute]; ring
  have hmin : min RATE_capacity ((0 : ℚ) + (t0 + 7500 * (k : ℚ) - t0) / 60000 *
      RATE_refillPerMinute) = (k : ℚ) := by
    rw [helapsed, zero_add, RATE_capacity]
    exact min_eq_right hkq
  simp only [takeToken, Option.getD_some, hmin]

/-- Claim C3: starting from a full (fresh) bucket, exactly 16 immediate
calls succeed and the 17th is denied; and from an empty bucket, after
exactly `7500·k` milliseconds (the time for `k ≤ 16` tokens to regenerate
at 8 per minute), exactly `k` immediate calls succeed before the next is
denied. -/
theorem tokenBucket_burst_and_refill (k : Nat) (hk : k ≤ 16) (t0 : ℚ) :
    (takeN 17 t0 none).1 = List.replicate 16 true ++ [false] ∧
    (takeN (k + 1) (t0 + 7500 * k) (some ⟨0, t0⟩)).1 =
      List.replicate k true ++ [false] := by
  constructor
  · have hstep : takeN 17 t0 none = takeN (16 + 1) t0 none := rfl
    rw [hstep, takeN_succ, takeToken_fresh]
    have hdrain : takeN 16 t0 (some ⟨15, t0⟩) =
        (List.replicate 15 true ++ [false], some ⟨0, t0⟩) := by
      have h := takeN_drain 15 (by norm_num) t0
      simpa using h
    rw [hdrain]
    show true :: (List.replicate 15 true ++ [false]) =
      List.replicate 16 true ++ [false]
    decide
  · cases k with
    | zero =>
      rw [takeN_succ, takeToken_refill t0 0 (by norm_num)]
      norm_num [takeN]
    | succ j =>
      have hj : j ≤ 16 := by omega
      rw [takeN_succ, takeToken_refill t0 (j + 1) hk]
      have hone : (1 : ℚ) ≤ ((j + 1 : Nat) : ℚ) := by
        push_cast
        have : (0 : ℚ) ≤ (j : ℚ) := by positivity
        linarith
      rw [if_pos hone]
      have htok : (((j + 1 : Nat)) : ℚ) - 1 = ((j : Nat) : ℚ) := by push_cast; ring
      rw [htok, takeN_drain j hj (t0 + 7500 * ((j + 1 : Nat) : ℚ))]
      simp [List.replicate_succ]

/-- Witness for C3 at `k = 5`, `t0 = 0`. -/
theorem tokenBucket_burst_and_refill_witness :
    (takeN 17 0 none).1 = List.replicate 16 true ++ [false] ∧
    (takeN 6 (0 + 7500 * (5 : Nat)) (some ⟨0, 0⟩)).1 =
      List.replicate 5 true ++ [false] :=
  tokenBucket_burst_and_refill 5 (by norm_num) 0

/-- One `takeToken` step keeps the stored bucket's tokens in
`[0, capacity]` and stamps it with the current time, provided the
incoming bucket (if any) satisfied the invariant at some earlier time. -/
theorem bucket_step (now : ℚ) (b0 : Option Bucket)
    (h : ∀ b, b0 = some b → 0 ≤ b.tokens ∧ b.tokens ≤ 16 ∧ b.last ≤ now) :
    0 ≤ (takeToken now b0).2.tokens ∧ (takeToken now b0).2.tokens ≤ 16 ∧
      (takeToken now b0).2.last = now := by
  have hb : 0 ≤ (b0.getD ⟨RATE_capacity, now⟩).tokens ∧
      (b0.getD ⟨RATE_capacity, now⟩).tokens ≤ 16 ∧
      (b0.getD ⟨RATE_capacity, now⟩).last ≤ now := by
    cases b0 with
    | none =>
      refine ⟨?_, ?_, le_refl now⟩
      · show (0 : ℚ) ≤ RATE_capacity
        rw [RATE_capacity]; norm_num
      · show RATE_capacity ≤ (16 : ℚ)
        rw [RATE_capacity]
    | some b => simpa using h b rfl
  have helapsed : 0 ≤ (now - (b0.getD ⟨RATE_capacity, now⟩).last) / 60000 :=
    div_nonneg (sub_nonneg.mpr hb.2.2) (by norm_num)
  have htok2lo : 0 ≤ min RATE_capacity ((b0.getD ⟨RATE_capacity, now⟩).tokens +
      (now - (b0.getD ⟨RATE_capacity, now⟩).last) / 60000 * RATE_refillPerMinute) := by
    refine le_min ?_ ?_
    · rw [RATE_capacity]; norm_num
    · refine add_nonneg hb.1 (mul_nonneg helapsed ?_)
      rw [RATE_refillPerMinute]; norm_num
  have htok2hi : min RATE_capacity ((b0.getD ⟨RATE_capacity, now⟩).tokens +
      (now - (b0.getD ⟨RATE_capacity, now⟩).last) / 60000 * RATE_refillPerMinute)
      ≤ 16 := by
    refine le_trans (min_le_left _ _) ?_
    rw [RATE_capacity]
  unfold takeToken
  dsimp only
  split_ifs with h1
  · exact ⟨by linarith, by linarith, rfl⟩
  · exact ⟨htok2lo, htok2hi, rfl⟩

/-- A `takeToken(ip)` call at time `now ≥ t` preserves the bucket-map
invariant. -/
theorem takeTokenMap_inv (ip : String) (now t : ℚ) (m : BucketMap)
    (hm : MapInv t m) (ht : t ≤ now) : MapInv now (takeTokenMap ip now m).2 := by
  intro k bk hk
  by_cases hki : k = ip
  · subst hki
    have hstep := bucket_step now (m k) (fun b hb => by
      obtain ⟨h1, h2, h3⟩ := hm k b hb
      exact ⟨h1, h2, le_trans h3 ht⟩)
    have hmk : (takeTokenMap k now m).2 k = some (takeToken now (m k)).2 := by
      simp [takeTokenMap]
    rw [hmk] at hk
    injection hk with hk
    rw [← hk]
    exact ⟨hstep.1, hstep.2.1, le_of_eq hstep.2.2⟩
  · simp only [takeTokenMap, if_neg hki] at hk
    obtain ⟨h1, h2, h3⟩ := hm k bk hk
    exact ⟨h1, h2, le_trans h3 ht⟩

/-- Running a time-ordered sequence of calls from an invariant-satisfying
map keeps every stored bucket's tokens within `[0, 16]`. -/
theorem runCalls_inv (calls : List (String × ℚ)) :
    ∀ (t : ℚ) (m : BucketMap), MapInv t m →
      timesNondec (t :: calls.map Prod.snd) = true →
      ∀ ip b, runCalls calls m ip = some b → 0 ≤ b.tokens ∧ b.tokens ≤ 16 := by
  induction calls with
  | nil =>
    intro t m hm _ ip b hb
    exact ⟨(hm ip b hb).1, (hm ip b hb).2.1⟩
  | cons c rest ih =>
    obtain ⟨cip, ct⟩ := c
    intro t m hm hchain ip b hb
    have hchain' : t ≤ ct ∧ timesNondec (ct :: rest.map Prod.snd) = true := by
      simpa [timesNondec] using hchain
    exact ih ct (takeTokenMap cip ct m).2
      (takeTokenMap_inv cip ct t m hm hchain'.1) hchain'.2 ip b hb

/-- Claim C4: for any client identities, any sequence of `takeToken`
calls, and any non-negative elapsed times between consecutive calls
(i.e. nondecreasing timestamps), every bucket stored in the `buckets`
map satisfies `0 ≤ tokens ≤ RATE.capacity`.  Since every prefix of such
a sequence is again such a sequence, this bounds the map after every
call. -/
theorem bucket_tokens_within_capacity (calls : List (String × ℚ))
    (hsorted : timesNondec (calls.map Prod.snd) = true) :
    ∀ ip b, runCalls calls (fun _ => none) ip = some b →
      0 ≤ b.tokens ∧ b.tokens ≤ RATE_capacity := by
  rw [RATE_capacity]
  cases calls with
  | nil =>
    intro ip b hb
    simp [runCalls] at hb
  | cons c rest =>
    obtain ⟨cip, ct⟩ := c
    intro ip b hb
    have hinv : MapInv ct (fun _ => none) := by
      intro k bk hk
      simp at hk
    have hchain : timesNondec (ct :: ((cip, ct) :: rest).map Prod.snd) = true := by
      simp only [List.map_cons]
      have : timesNondec (ct :: rest.map Prod.snd) = true := by
        simpa [timesNondec] using hsorted
      simp [timesNondec, this]
    exact runCalls_inv ((cip, ct) :: rest) ct (fun _ => none) hinv hchain ip b hb

/-- Witness for C4 on the concrete call sequence
`[("a", 0 ms), ("a", 60000 ms)]`: the resulting bucket for `"a"` holds
`15` tokens (capped refill of 8, one consumed twice), within
`[0, capacity]`. -/
theorem bucket_tokens_within_capacity_witness :
    timesNondec ([(("a" : String), (0 : ℚ)), ("a", 60000)].map Prod.snd) = true ∧
    (0 ≤ (15 : ℚ) ∧ (15 : ℚ) ≤ RATE_capacity) :=
  ⟨by norm_num [timesNondec],
   bucket_tokens_within_capacity [("a", 0), ("a", 60000)]
     (by norm_num [timesNondec]) "a" ⟨15, 60000⟩
     (by norm_num [runCalls, takeTokenMap, takeToken, RATE_capacity,
        RATE_refillPerMinute, min_def])⟩

/-! ## Fallback invoker (claims C1 and C2) -/

/-- Claim C1 (code bug): the spec says a non-2xx body that matches none
of the recoverable substrings is raised immediately, with no further
candidate attempted.  In the code the corresponding `throw new
Error(errText)` sits inside the loop body's own `try`, whose
`catch (e) { lastError = String(e); continue; }` swallows it, so the next
candidate IS attempted: with the first candidate answering
`"Internal Server Error"` (non-recoverable) and a second healthy
candidate, the call returns the second candidate's answer after two
upstream calls instead of raising the first candidate's error. -/
theorem fatal_upstream_error_continues_to_next_candidate :
    isRecoverableErr "Internal Server Error" = false ∧
    callGroqWithFallback respondFatalThenOk ["m1", "m2"] "p" =
      (.ok "hi", ["m1", "m2"]) := by decide

/-- Claim C2: candidates are tried strictly one at a time in list order;
with a three-candidate list whose first two calls fail with a
"model not found" body and whose third returns a valid (nonempty-after-
trim) answer, the result is the third candidate's answer and exactly
three upstream calls are made, in list order. -/
theorem fallback_tries_candidates_in_order
    (respond : String → String → UpstreamResult) (p m1 m2 m3 b1 b2 raw : String)
    (h1 : respond m1 p = .httpError b1) (hb1 : containsStr b1 "not found" = true)
    (h2 : respond m2 p = .httpError b2) (hb2 : containsStr b2 "not found" = true)
    (h3 : respond m3 p = .success (some raw)) (hraw : jsTrim raw ≠ "") :
    callGroqWithFallback respond [m1, m2, m3] p =
      (.ok (jsTrim raw), [m1, m2, m3]) := by
  have r1 : isRecoverableErr b1 = true := by
    simp [isRecoverableErr, hb1]
  have r2 : isRecoverableErr b2 = true := by
    simp [isRecoverableErr, hb2]
  simp [callGroqWithFallback, callGroqWithFallbackAux, h1, h2, h3, r1, r2, hraw]

/-- Witness for C2 on a concrete upstream. -/
theorem fallback_tries_candidates_in_order_witness :
    callGroqWithFallback respondNotFoundTwice ["a", "b", "c"] "p" =
      (.ok "the answer", ["a", "b", "c"]) :=
  fallback_tries_candidates_in_order respondNotFoundTwice "p" "a" "b" "c"
    "model a not found" "model b not found" "the answer"
    (by decide) (by decide) (by decide) (by decide) (by decide) (by decide)

/-! ## Input guard (claim C5) -/

/-- A message consisting only of ECMAScript whitespace trims to the empty
string. -/
theorem jsTrim_eq_empty_of_all_space (m : String)
    (h : ∀ c ∈ m.data, isJsSpace c = true) : jsTrim m = "" := by
  have hd : m.data.dropWhile isJsSpace = [] := List.dropWhile_eq_nil_iff.mpr h
  simp [jsTrim, hd]

/-- `jsTrim` fixes a string of `n` letters `'a'`. -/
theorem jsTrim_replicate_a (n : Nat) :
    jsTrim (String.mk (List.replicate n 'a')) =
      String.mk (List.replicate n 'a') := by
  have hdrop : ∀ (j : Nat),
      (List.replicate j 'a').dropWhile isJsSpace = List.replicate j 'a' := by
    intro j
    cases j with
    | zero => rfl
    | succ i =>
      rw [List.replicate_succ, List.dropWhile_cons]
      have hfa : isJsSpace 'a' = false := by decide
      rw [hfa]
      simp
  show String.mk ((((List.replicate n 'a').dropWhile isJsSpace).reverse.dropWhile
      isJsSpace).reverse) = String.mk (List.replicate n 'a')
  rw [hdrop n, List.reverse_replicate, hdrop n, List.reverse_replicate]

/-- Counterexample to claim C5 as stated.  (i) A literally empty
`message` string is falsy in JavaScript, so it fails the first check and
is rejected with the missing-message error `"Provide 'message'
(string)"`, not the empty-message error.  (ii) The URL pattern
`/https?:\/\/\S{20,}/i` requires at least 20 non-space characters AFTER
the scheme, so a 25-character bare URL (`"http://"` + 18 characters) does
not match it — and all its characters are whitelisted — hence the message
passes the guard instead of being rejected as spam-like. -/
theorem input_guard_counterexample :
    validate (some "") = .error .missingMessage ∧
    ("http://aaaaaaaaaaaaaaaaaa" : String).length = 25 ∧
    validate (some "http://aaaaaaaaaaaaaaaaaa") =
      .ok "http://aaaaaaaaaaaaaaaaaa" := by decide

/-- Claim C5, amended by the counterexample: the checks run in source
order with short-circuiting; a trimmed 800-character message passes the
length check and an 801-character one is rejected as too long (mapped to
413 by the handler, the other guard errors to 400); a whitespace-only
nonempty message is rejected as empty, while a literally empty string is
rejected with the missing-message error; a bare URL with at least 20
non-space characters after the scheme is rejected as spam-like (a
25-character URL is not — see the counterexample); and a message of
ASCII letters, digits, spaces, and whitelisted punctuation always passes
the character-set pattern. -/
theorem input_guard_amended :
    (∀ m : String, jsTrim m = m → m.length = 800 →
      validate (some m) ≠ .error .tooLong) ∧
    (∀ m : String, jsTrim m = m → m.length = 801 →
      validate (some m) = .error .tooLong) ∧
    (∀ m : String, m ≠ "" → (∀ c ∈ m.data, isJsSpace c = true) →
      validate (some m) = .error .emptyMessage) ∧
    validate (some "") = .error .missingMessage ∧
    validate none = .error .missingMessage ∧
    validate (some "http://aaaaaaaaaaaaaaaaaaaa") = .error .spamLike ∧
    validate (some "http://aaaaaaaaaaaaaaaaaa") =
      .ok "http://aaaaaaaaaaaaaaaaaa" ∧
    (∀ m : String,
      (∀ c ∈ m.data, ('a' ≤ c ∧ c ≤ 'z') ∨ ('A' ≤ c ∧ c ≤ 'Z') ∨
        ('0' ≤ c ∧ c ≤ '9') ∨ c = ' ' ∨ isAllowedPunct c = true) →
      hasBadChar m = false) ∧
    (∀ respond envModel rand now buckets req b e,
      req.method = "POST" →
      (takeTokenMap (ipFromReq req) now buckets).1 = true →
      req.body = some b → validate b.message = .error e →
      ((handler respond envModel rand now buckets req).1).status = guardStatus e ∧
      ((handler respond envModel rand now buckets req).1).body =
        .jsonError (guardMessage e)) := by
  have validate_some : ∀ m : String,
      validate (some m) =
        if m = "" then .error .missingMessage
        else if jsTrim m = "" then .error .emptyMessage
        else if MAX_CHARS < (jsTrim m).length then .error .tooLong
        else if blockedPatternsSome (jsTrim m) = true then .error .spamLike
        else .ok (jsTrim m) := fun _ => rfl
  refine ⟨?_, ?_, ?_, by decide, by decide, by decide, by decide, ?_, ?_⟩
  · intro m h1 h3
    have h2 : m ≠ "" := by
      intro e
      rw [e] at h3
      simp at h3
    have hlen : ¬ (MAX_CHARS < m.length) := by
      rw [h3, MAX_CHARS]
      norm_num
    rw [validate_some, if_neg h2, h1, if_neg h2, if_neg hlen]
    split <;> simp
  · intro m h1 h3
    have h2 : m ≠ "" := by
      intro e
      rw [e] at h3
      simp at h3
    have hlen : MAX_CHARS < m.length := by
      rw [h3, MAX_CHARS]
      norm_num
    rw [validate_some, if_neg h2, h1, if_neg h2, if_pos hlen]
  · intro m h2 hsp
    have htrim : jsTrim m = "" := jsTrim_eq_empty_of_all_space m hsp
    rw [validate_some, if_neg h2, htrim]
    simp
  · intro m h
    have hall : ∀ c ∈ m.data,
        (isWordChar c || isJsSpace c || isAllowedPunct c) = true := by
      intro c hc
      rcases h c hc with h' | h' | h' | h' | h'
      · simp [isWordChar, h'.1, h'.2]
      · simp [isWordChar, h'.1, h'.2]
      · simp [isWordChar, h'.1, h'.2]
      · subst h'
        simp [isJsSpace]
      · simp [h']
    rw [hasBadChar]
    rw [List.any_eq_false]
    intro c hc
    simp [hall c hc]
  · intro respond envModel rand now buckets req b e hm hallow hbody hval
    have hopt : (req.method = "OPTIONS") = False := by
      rw [hm]
      simp
    have hneq : (req.method ≠ "POST") = False := by
      rw [hm]
      simp
    rw [handler]
    simp only [hopt, hneq, if_false, hallow, hbody, Option.getD_some, hval,
      Bool.not_true, Bool.false_eq_true, if_false]
    refine ⟨?_, ?_⟩ <;> first | rfl | trivial

/-- Witness for the amended C5 on concrete inputs. -/
theorem input_guard_amended_witness :
    validate (some (String.mk (List.replicate 800 'a'))) ≠ .error .tooLong ∧
    validate (some (String.mk (List.replicate 801 'a'))) = .error .tooLong ∧
    validate (some " ") = .error .emptyMessage ∧
    hasBadChar "Hello, world! (ok) 100%" = false ∧
    (handler (fun _ _ => .success (some "x")) none ⟨true, 0, true, 0⟩ 0
      emptyBuckets reqLong801).1.status = 413 := by
  have h := input_guard_amended
  have hlen801 : (String.mk (List.replicate 801 'a')).length = 801 := by
    show (List.replicate 801 'a').length = 801
    rw [List.length_replicate]
  have hlen800 : (String.mk (List.replicate 800 'a')).length = 800 := by
    show (List.replicate 800 'a').length = 800
    rw [List.length_replicate]
  have h801 : validate (some (String.mk (List.replicate 801 'a'))) =
      .error .tooLong := h.2.1 _ (jsTrim_replicate_a 801) hlen801
  have hallow : (takeTokenMap (ipFromReq reqLong801) 0 emptyBuckets).1 = true := by
    show (takeToken 0 (emptyBuckets (ipFromReq reqLong801))).1 = true
    rw [show emptyBuckets (ipFromReq reqLong801) = none from rfl, takeToken_fresh]
  refine ⟨h.1 _ (jsTrim_replicate_a 800) hlen800,
    h801,
    h.2.2.1 " " (by decide) (by decide),
    h.2.2.2.2.2.2.2.1 _ (by decide), ?_⟩
  exact (h.2.2.2.2.2.2.2.2 (fun _ _ => .success (some "x")) none
    ⟨true, 0, true, 0⟩ 0 emptyBuckets reqLong801 _ .tooLong rfl hallow rfl h801).1

/-! ## Paragraph reflow (claim C6) -/

/-- Counterexample to claim C6 as stated: an input splitting into fewer
than 4 sentences is NOT always returned unchanged — the code returns
`text.trim()`, so a three-sentence input with trailing whitespace comes
back trimmed. -/
theorem paragraph_reflow_counterexample :
    splitSentences "A. B. C. " = ["A.", "B.", "C. "] ∧
    formatParagraphs "A. B. C. " = "A. B. C." ∧
    formatParagraphs "A. B. C. " ≠ "A. B. C. " := by decide

/-- Claim C6, amended by the counterexample: an input containing a
blank-line separator is returned trimmed but otherwise unmodified; an
input splitting into fewer than 4 sentences by the boundary heuristic is
returned TRIMMED as a single block (not literally unchanged); and an
input splitting into exactly five sentences yields two paragraphs joined
by a blank line — the first three sentences joined by spaces, then the
remaining two — and the result trimmed. -/
theorem paragraph_reflow_amended :
    (∀ text, hasBlankLine text = true → formatParagraphs text = jsTrim text) ∧
    (∀ text, text ≠ "" → hasBlankLine text = false →
      (splitSentences text).length < 4 → formatParagraphs text = jsTrim text) ∧
    (∀ text s1 s2 s3 s4 s5, hasBlankLine text = false →
      splitSentences text = [s1, s2, s3, s4, s5] →
      formatParagraphs text =
        jsTrim ((s1 ++ " " ++ s2 ++ " " ++ s3) ++ "\n\n" ++ (s4 ++ " " ++ s5))) := by
  refine ⟨?_, ?_, ?_⟩
  · intro text h
    have hne : text ≠ "" := by
      intro e
      rw [e] at h
      exact absurd h (by decide)
    rw [formatParagraphs, if_neg hne, if_pos h]
  · intro text hne hb hlen
    rw [formatParagraphs, if_neg hne, if_neg (by simp [hb])]
    dsimp only
    rw [if_pos hlen]
  · intro text s1 s2 s3 s4 s5 hb hsplit
    have hne : text ≠ "" := by
      intro e
      rw [e] at hsplit
      rw [show splitSentences "" = [""] from rfl] at hsplit
      simp at hsplit
    rw [formatParagraphs, if_neg hne, if_neg (by simp [hb])]
    dsimp only
    rw [hsplit, if_neg (by simp)]
    rfl

/-- Witness for the amended C6 on three concrete inputs. -/
theorem paragraph_reflow_amended_witness :
    formatParagraphs "x\n\ny " = "x\n\ny" ∧
    formatParagraphs "One a. Two b. Three c." = "One a. Two b. Three c." ∧
    formatParagraphs "One a. Two b. Three c. Four d. Five e." =
      "One a. Two b. Three c.\n\nFour d. Five e." := by
  have h := paragraph_reflow_amended
  refine ⟨?_, ?_, ?_⟩
  · rw [h.1 "x\n\ny " (by decide)]
    decide
  · rw [h.2.1 "One a. Two b. Three c." (by decide) (by decide) (by decide)]
    decide
  · rw [h.2.2 "One a. Two b. Three c. Four d. Five e." "One a." "Two b."
      "Three c." "Four d." "Five e." (by decide) (by decide)]
    decide

/-! ## Handler short-circuiting and CORS (claims C7 and C8) -/

/-- Claim C7: when the rate limiter denies a `POST`, the handler responds
429 and nothing later in the pipeline runs — the response and updated
state do not depend on the request body, the flavoring randomness, the
environment, or the upstream (`respond` is arbitrary and unused), and the
list of upstream calls is empty. -/
theorem rate_limited_post_short_circuits
    (respond : String → String → UpstreamResult) (envModel : Option String)
    (rand : FlavorRand) (now : ℚ) (buckets : BucketMap) (req : Request)
    (hm : req.method = "POST")
    (hdeny : (takeTokenMap (ipFromReq req) now buckets).1 = false) :
    handler respond envModel rand now buckets req =
      (⟨429, [("Access-Control-Allow-Origin", computeAllow req.origin)],
        .jsonError "Too many requests, please wait a bit."⟩,
       (takeTokenMap (ipFromReq req) now buckets).2, []) := by
  have hopt : (req.method = "OPTIONS") = False := by
    rw [hm]
    simp
  have hneq : (req.method ≠ "POST") = False := by
    rw [hm]
    simp
  rw [handler]
  simp only [hopt, hneq, if_false, hdeny, Bool.not_false, if_true]

/-- Witness for C7: a drained bucket map denies the request and the
handler returns 429 with no upstream call. -/
theorem rate_limited_post_short_circuits_witness :
    handler (fun _ _ => .success (some "x")) none ⟨true, 0, true, 0⟩ 0
        drainedBuckets reqPlainPost =
      (⟨429, [("Access-Control-Allow-Origin", computeAllow reqPlainPost.origin)],
        .jsonError "Too many requests, please wait a bit."⟩,
       (takeTokenMap (ipFromReq reqPlainPost) 0 drainedBuckets).2, []) := by
  have hdeny : (takeTokenMap (ipFromReq reqPlainPost) 0 drainedBuckets).1
      = false := by
    show (takeToken 0 (drainedBuckets (ipFromReq reqPlainPost))).1 = false
    rw [show drainedBuckets (ipFromReq reqPlainPost) = some ⟨0, 0⟩ from rfl,
      takeToken_no_elapsed]
    norm_num [RATE_capacity, min_def]
  exact rate_limited_post_short_circuits _ _ _ _ _ _ rfl hdeny

/-- Claim C8: every terminal response of the handler — OPTIONS,
method-not-allowed, rate-limited, each validation failure, the
history-fault 500, the exhausted-fallback 500, and success — carries the
`Access-Control-Allow-Origin` header, whose value echoes the caller's
origin when it starts with the expected prefix and is the fixed default
origin otherwise. -/
theorem every_response_carries_cors_allow_origin
    (respond : String → String → UpstreamResult) (envModel : Option String)
    (rand : FlavorRand) (now : ℚ) (buckets : BucketMap) (req : Request) :
    List.lookup "Access-Control-Allow-Origin"
        ((handler respond envModel rand now buckets req).1.headers) =
      some (if (req.origin.getD "") ≠ "" &&
              (req.origin.getD "").startsWith ALLOWED_ORIGIN
            then req.origin.getD "" else ALLOWED_ORIGIN) := by
  have hget : (if (req.origin.getD "") ≠ "" &&
      (req.origin.getD "").startsWith ALLOWED_ORIGIN
      then req.origin.getD "" else ALLOWED_ORIGIN) = computeAllow req.origin := by
    rw [computeAllow]
  rw [hget]
  simp only [handler]
  repeat' split
  all_goals rfl

/-! ## Prompt assembler (claim C9) -/

/-- Rendering a history window in which every entry has a `role` string
succeeds and produces the uppercased-role lines in order. -/
theorem renderTurns_eq_map (l : List HistTurn) (h : ∀ x ∈ l, x.role ≠ none) :
    renderTurns l = some (l.map (fun x =>
      jsToUpperCase (x.role.getD "") ++ ": " ++ x.content)) := by
  induction l with
  | nil => rfl
  | cons a t ih =>
    obtain ⟨r, hr⟩ : ∃ r, a.role = some r := by
      cases ha : a.role with
      | none => exact absurd ha (h a (by simp))
      | some r => exact ⟨r, rfl⟩
    rw [renderTurns, hr, ih (fun x hx => h x (by simp [hx]))]
    simp [hr]

/-- Claim C9: the prompt assembler is a pure function that renders the
last 6 history entries (oldest of that window first) as
`"<ROLE-UPPERCASED>: <content>"` joined by newlines, and concatenates
persona text, the recent-context label with that rendering, the user's
message, and the fixed assistant cue, in that order. -/
theorem prompt_assembler_spec (history : List HistTurn) (msg : String)
    (h : ∀ x ∈ history, x.role ≠ none) :
    buildConvo history = some (String.intercalate "\n"
      (((history.reverse.take 6).reverse).map (fun x =>
        jsToUpperCase (x.role.getD "") ++ ": " ++ x.content))) ∧
    (∀ convo, buildPrompt convo msg =
      bioText ++ "\n\nRECENT CONTEXT:\n" ++ convo ++ "\n\nUSER: " ++ msg ++
        "\n\nASSISTANT (Max-AI Assistant):") := by
  constructor
  · have hsub : ∀ x ∈ sliceLast6 history, x.role ≠ none := fun x hx =>
      h x (List.mem_of_mem_drop hx)
    have hslice : sliceLast6 history = (history.reverse.take 6).reverse := by
      rw [show sliceLast6 history = List.rtake history 6 from rfl,
        List.rtake_eq_reverse_take_reverse]
    rw [buildConvo, renderTurns_eq_map _ hsub, hslice]
    rfl
  · intro convo
    rfl

/-- Witness for C9 on a seven-entry history: the oldest entry is dropped
and the remaining six render oldest-first with uppercased roles. -/
theorem prompt_assembler_spec_witness :
    buildConvo histSeven = some (String.intercalate "\n"
      (((histSeven.reverse.take 6).reverse).map (fun x =>
        jsToUpperCase (x.role.getD "") ++ ": " ++ x.content))) ∧
    buildConvo histSeven = some
      "ASSISTANT: m2\nUSER: m3\nASSISTANT: m4\nUSER: m5\nASSISTANT: m6\nUSER: m7" :=
  ⟨(prompt_assembler_spec histSeven "q" (by decide)).1, by decide⟩

/-! ## History is never validated (claim C10) -/

/-- Rendering a window that contains an entry without a `role` string
throws (returns `none`). -/
theorem renderTurns_eq_none (l : List HistTurn) (x : HistTurn) (hx : x ∈ l)
    (hrole : x.role = none) : renderTurns l = none := by
  induction l with
  | nil => cases hx
  | cons a t ih =>
    rcases List.mem_cons.mp hx with rfl | hxt
    · simp [renderTurns, hrole]
    · cases ha : a.role with
      | none => simp [renderTurns, ha]
      | some r => simp [renderTurns, ha, ih hxt]

/-- Claim C10: the input guard never inspects the caller-supplied
history.  A `POST` that passes the rate limiter and whose `message`
validates, but whose last-6 history window contains an entry with a
missing (or non-string) `role`, faults while rendering the context and is
answered by the top-level catch with 500, error `"Server error"` and a
stringified `TypeError` detail — not a 400 client-input error — and no
upstream call is made. -/
theorem invalid_history_returns_500
    (respond : String → String → UpstreamResult) (envModel : Option String)
    (rand : FlavorRand) (now : ℚ) (buckets : BucketMap) (req : Request)
    (b : ReqBody) (x : HistTurn)
    (hm : req.method = "POST")
    (hallow : (takeTokenMap (ipFromReq req) now buckets).1 = true)
    (hbody : req.body = some b)
    (hok : ∃ t, validate b.message = Except.ok t)
    (hx : x ∈ sliceLast6 b.history) (hrole : x.role = none) :
    (handler respond envModel rand now buckets req).1 =
      ⟨500, [("Access-Control-Allow-Origin", computeAllow req.origin)],
        .jsonErrorDetail "Server error" roleTypeErrorDetail⟩ ∧
    (handler respond envModel rand now buckets req).2.2 = [] := by
  obtain ⟨t, ht⟩ := hok
  have hconvo : buildConvo b.history = none := by
    rw [buildConvo, renderTurns_eq_none (sliceLast6 b.history) x hx hrole]
    rfl
  have hopt : (req.method = "OPTIONS") = False := by
    rw [hm]
    simp
  have hneq : (req.method ≠ "POST") = False := by
    rw [hm]
    simp
  rw [handler]
  simp only [hopt, hneq, if_false, hallow, hbody, Option.getD_some, ht,
    hconvo, Bool.not_true, Bool.false_eq_true, if_false]
  refine ⟨?_, ?_⟩ <;> first | rfl | trivial

/-- Witness for C10: concrete request whose single history entry has no
role; the guard passes the message, yet the handler returns the 500
server-error response. -/
theorem invalid_history_returns_500_witness :
    (handler (fun _ _ => .success (some "x")) none ⟨true, 0, true, 0⟩ 0
        emptyBuckets reqBadHistory).1 =
      ⟨500, [("Access-Control-Allow-Origin", ALLOWED_ORIGIN)],
        .jsonErrorDetail "Server error" roleTypeErrorDetail⟩ := by
  have hallow : (takeTokenMap (ipFromReq reqBadHistory) 0 emptyBuckets).1
      = true := by
    show (takeToken 0 (emptyBuckets (ipFromReq reqBadHistory))).1 = true
    rw [show emptyBuckets (ipFromReq reqBadHistory) = none from rfl,
      takeToken_fresh]
  exact (invalid_history_returns_500 _ _ _ _ _ _ ⟨some "hello", [⟨none, "x"⟩]⟩
    ⟨none, "x"⟩ rfl hallow rfl ⟨"hello", by decide⟩ (by decide) rfl).1

end ChatApi
